import Mathlib

/-!
Verification of the randomized SVD routine of `mat/rsvd.go` (package `mat`).

The file embeds the `RSVD` type and its operations `Factorize`, `Values`,
`UTo` and `VTo` from the source. The external collaborators of the routine
(dense matrix storage, QR factorization, exact SVD, uniform random source)
are not part of the analysed sources; they are modelled from the spec's
boundary contracts and injected as an explicit `Collab` record, with their
behavioural contracts collected in `CollabSpec`. Panics of the Go code are
modelled as `Except.error`; a receiver-mutating call returns the receiver
state after the call next to its outcome, so that state visible after a
panic is captured.
-/

deriving instance DecidableEq for Except

namespace RSVDModel

/-- Fatal conditions (Go panics) of the routine and its collaborators. -/
inductive Err where
  | shape
  | badDim
  | sliceLength
  | nilPointer
  | rankTooSmall
  | failedFactorization
deriving DecidableEq

/-- Modelled from the spec: the dense matrix collaborator (§6) — a matrix is
row and column counts with a flat row-major data buffer, as in the reference
dense type. -/
structure Mat where
  rows : Nat
  cols : Nat
  data : List ℚ
deriving DecidableEq

/-- Row-major element read: entry `(i, j)` sits at flat index `i*cols + j`. -/
def Mat.entry (M : Mat) (i j : Nat) : ℚ :=
  M.data.getD (i * M.cols + j) 0

/-- Modelled from the spec: emptiness query of the dense collaborator (§6);
the zero-valued dense matrix has no sized dimension. -/
def Mat.isEmpty (M : Mat) : Bool :=
  M.rows == 0 || M.cols == 0

/-- The zero-valued (empty) dense matrix. -/
def emptyMat : Mat := ⟨0, 0, []⟩

/-- One row of length `c` sampled from `g`. -/
def rowOf (c : Nat) (g : Nat → ℚ) : List ℚ :=
  (List.range c).map g

/-- Row-major flat buffer of an `r × c` matrix with entries `f i j`. -/
def flatOf : Nat → Nat → (Nat → Nat → ℚ) → List ℚ
  | 0, _, _ => []
  | r + 1, c, f => rowOf c (f 0) ++ flatOf r c (fun i j => f (i + 1) j)

/-- Modelled from the spec: matrix product `A·B` of the dense collaborator
(§6), entries are dot products of rows of `A` with columns of `B`. -/
def matMul (A B : Mat) : Mat :=
  ⟨A.rows, B.cols, flatOf A.rows B.cols (fun i j =>
    ((List.range A.cols).map (fun k => A.entry i k * B.entry k j)).sum)⟩

/-- Modelled from the spec: transpose view of the dense collaborator (§6). -/
def Mat.transpose (M : Mat) : Mat :=
  ⟨M.cols, M.rows, flatOf M.cols M.rows (fun i j => M.entry j i)⟩

/-- Modelled from the spec: sub-block slicing of the dense collaborator (§6),
used only to truncate the orthogonal factor to its leading block (§4.1
step 3); the spec enforces no upper bound on the requested width (§4.1). -/
def sliceTo (M : Mat) (r c : Nat) : Mat :=
  ⟨r, c, flatOf r c (fun i j => M.entry i j)⟩

/-- Modelled from the spec: construction from row/column counts and an
optional flat row-major buffer (§6); a non-positive dimension or a
wrong-length buffer is a fatal precondition violation (§7). -/
def newDense (r c : Nat) (buf : Option (List ℚ)) : Except Err Mat :=
  if r = 0 ∨ c = 0 then .error .badDim
  else
    match buf with
    | none => .ok ⟨r, c, List.replicate (r * c) 0⟩
    | some d => if d.length = r * c then .ok ⟨r, c, d⟩ else .error .badDim

/-- Modelled from the spec: multiplication into a destination with shape
checking (§6); a shape mismatch is signaled distinctly, and an empty
destination is resized to the product's shape. -/
def mulInto (dst a b : Mat) : Except Err Mat :=
  if a.cols ≠ b.rows then .error .shape
  else if dst.isEmpty then .ok (matMul a b)
  else if dst.rows = a.rows ∧ dst.cols = b.cols then .ok (matMul a b)
  else .error .shape

/-- Modelled from the spec: in-place resize-if-empty of the dense
collaborator (§6); a non-positive dimension is a fatal precondition
violation (§7). The resized matrix is zeroed. -/
def reuseAs (r c : Nat) : Except Err Mat :=
  if r = 0 ∨ c = 0 then .error .badDim
  else .ok ⟨r, c, List.replicate (r * c) 0⟩

/-- Modelled from the spec: element-wise copy-from of the dense collaborator
(§6); the overlapping block is overwritten, the rest of the destination is
kept. -/
def copyInto (dst src : Mat) : Mat :=
  ⟨dst.rows, dst.cols, flatOf dst.rows dst.cols (fun i j =>
    if i < src.rows ∧ j < src.cols then src.entry i j else dst.entry i j)⟩

/-- The SVD mode flag; the routine always requests thin outputs. -/
inductive SVDKind where
  | thin
  | full
deriving DecidableEq

/-- Modelled from the spec: the external collaborators of §6 — the QR
orthogonal factor, the exact SVD outputs over the reduced matrix, and the
uniform random source — injected as functions. -/
structure Collab where
  qrQFull : Mat → Mat
  svdOk : Mat → Bool
  svdVals : Mat → List ℚ
  svdU : Mat → Mat
  svdV : Mat → Mat
  rand : Nat → ℚ

/-- Modelled from the spec: the boundary contracts of §6 and §3. The QR
collaborator returns the full square orthogonal factor; the exact SVD over a
`rank × n` matrix yields `rank` singular values in descending order, all
non-negative, a `rank × rank` left factor and an `n × rank` right factor;
the random source draws from `[0, 1)`. -/
structure CollabSpec (c : Collab) : Prop where
  qr_rows : ∀ Z, (c.qrQFull Z).rows = Z.rows
  qr_cols : ∀ Z, (c.qrQFull Z).cols = Z.rows
  vals_len : ∀ Y, (c.svdVals Y).length = Y.rows
  vals_desc : ∀ Y, List.Chain' (fun a b => b ≤ a) (c.svdVals Y)
  vals_nonneg : ∀ Y, ∀ x ∈ c.svdVals Y, 0 ≤ x
  u_rows : ∀ Y, (c.svdU Y).rows = Y.rows
  u_cols : ∀ Y, (c.svdU Y).cols = Y.rows
  v_rows : ∀ Y, (c.svdV Y).rows = Y.cols
  v_cols : ∀ Y, (c.svdV Y).cols = Y.rows
  rand_mem : ∀ i, 0 ≤ c.rand i ∧ c.rand i < 1

/-- Modelled from the spec: the ReducedSVD state (§3) — the
successful-factorization flag together with the factorized reduced matrix,
from which the collaborator's outputs are read on demand. -/
structure SVDState where
  ok : Bool
  y : Mat
deriving DecidableEq

/-- Modelled from the spec: the exact SVD collaborator's factorization (§6):
it replaces the state wholesale and reports its success flag. -/
def svdFactorizeM (c : Collab) (Y : Mat) (_ : SVDKind) : SVDState × Bool :=
  (⟨c.svdOk Y, Y⟩, c.svdOk Y)

/-- Modelled from the spec: the exact SVD collaborator's singular values
(§6, §4.2): a fatal error without a successful factorization; a supplied
slice must have exactly the values' length. -/
def svdValuesM (c : Collab) (st : SVDState) (s : Option (List ℚ)) :
    Except Err (List ℚ) :=
  if st.ok = false then .error .failedFactorization
  else
    match s with
    | none => .ok (c.svdVals st.y)
    | some l =>
      if l.length = (c.svdVals st.y).length then .ok (c.svdVals st.y)
      else .error .sliceLength

/-- Modelled from the spec: the exact SVD collaborator's left-vector
extraction (§6): fatal without a successful factorization; an empty
destination is resized, a non-empty one must match the output's shape. -/
def svdUToM (c : Collab) (st : SVDState) (dst : Mat) : Mat × Except Err Unit :=
  if st.ok = false then (dst, .error .failedFactorization)
  else
    let U := c.svdU st.y
    if dst.isEmpty then
      match reuseAs U.rows U.cols with
      | .error e => (dst, .error e)
      | .ok d1 => (copyInto d1 U, .ok ())
    else if dst.rows = U.rows ∧ dst.cols = U.cols then (copyInto dst U, .ok ())
    else (dst, .error .shape)

/-- Modelled from the spec: the exact SVD collaborator's right-vector
extraction (§6), with the same destination contract as the left one. -/
def svdVToM (c : Collab) (st : SVDState) (dst : Mat) : Mat × Except Err Unit :=
  if st.ok = false then (dst, .error .failedFactorization)
  else
    let V := c.svdV st.y
    if dst.isEmpty then
      match reuseAs V.rows V.cols with
      | .error e => (dst, .error e)
      | .ok d1 => (copyInto d1 V, .ok ())
    else if dst.rows = V.rows ∧ dst.cols = V.cols then (copyInto dst V, .ok ())
    else (dst, .error .shape)

/-- The RSVD struct of `mat/rsvd.go`: an inner SVD behind a nilable pointer
(modelled as an `Option`), the target rank, the truncated orthonormal basis
behind a nilable pointer, and the row count of the factorized matrix. -/
structure RSVD where
  svd : Option SVDState
  rank : Nat
  q : Option Mat
  m : Nat
deriving DecidableEq

/-- The zero value of the RSVD struct: nil pointers and zero integers. -/
def RSVD.zero : RSVD := ⟨none, 0, none, 0⟩

/-- `makeRandomMatrix` of `mat/rsvd.go`: a rows×columns dense matrix whose
flat buffer is filled with consecutive draws of the random source. -/
def makeRandomMatrix (c : Collab) (rows columns : Nat) : Except Err Mat :=
  newDense rows columns (some ((List.range (rows * columns)).map c.rand))

/-- `Factorize` of `mat/rsvd.go`, line by line: the rank guard, the random
projector `P`, the sketch `Z = A·P`, the full QR orthogonal factor truncated
to `Q`, the reduced matrix `Y = Qᵀ·A`, the stores of `m` and `Q`, and the
delegation to the inner SVD (a nil inner pointer is dereferenced there).
Returns the receiver state after the call next to the outcome. -/
def factorize (c : Collab) (rsvd : RSVD) (A : Mat) (rank : Int) :
    RSVD × Except Err Bool :=
  if rank < 1 then (rsvd, .error .rankTooSmall)
  else
    let m := A.rows
    let n := A.cols
    let r := rank.toNat
    match makeRandomMatrix c n r with
    | .error e => (rsvd, .error e)
    | .ok P =>
      match newDense m r none with
      | .error e => (rsvd, .error e)
      | .ok Z0 =>
        match mulInto Z0 A P with
        | .error e => (rsvd, .error e)
        | .ok Z =>
          let QFull := c.qrQFull Z
          let Q := sliceTo QFull m r
          match newDense r n none with
          | .error e => (rsvd, .error e)
          | .ok Y0 =>
            match mulInto Y0 Q.transpose A with
            | .error e => (rsvd, .error e)
            | .ok Y =>
              let rsvd1 : RSVD := { rsvd with m := m, q := some Q }
              match rsvd.svd with
              | none => (rsvd1, .error .nilPointer)
              | some _ =>
                let fr := svdFactorizeM c Y SVDKind.thin
                ({ rsvd1 with svd := some fr.fst }, .ok fr.snd)

/-- `Values` of `mat/rsvd.go`: delegates to the inner SVD's values. -/
def values (c : Collab) (rsvd : RSVD) (s : Option (List ℚ)) :
    Except Err (List ℚ) :=
  match rsvd.svd with
  | none => .error .nilPointer
  | some st => svdValuesM c st s

/-- `UTo` of `mat/rsvd.go`: reads `Uy` from the inner SVD into a fresh local,
builds `U` of dimensions `m × rank` from the receiver's fields, multiplies
`U = q · Uy`, then resizes an empty destination or validates a non-empty one
before copying. Returns the destination after the call next to the
outcome. -/
def uTo (c : Collab) (rsvd : RSVD) (dst : Mat) : Mat × Except Err Unit :=
  match rsvd.svd with
  | none => (dst, .error .nilPointer)
  | some st =>
    match svdUToM c st emptyMat with
    | (_, .error e) => (dst, .error e)
    | (Uy, .ok _) =>
      match newDense rsvd.m rsvd.rank none with
      | .error e => (dst, .error e)
      | .ok U0 =>
        match rsvd.q with
        | none => (dst, .error .nilPointer)
        | some q =>
          match mulInto U0 q Uy with
          | .error e => (dst, .error e)
          | .ok U =>
            if dst.isEmpty then
              match reuseAs rsvd.m rsvd.rank with
              | .error e => (dst, .error e)
              | .ok d1 => (copyInto d1 U, .ok ())
            else if dst.rows = rsvd.m ∧ dst.cols = rsvd.rank then
              (copyInto dst U, .ok ())
            else (dst, .error .shape)

/-- `VTo` of `mat/rsvd.go`: delegates directly to the inner SVD's
right-vector extraction, with no back-projection. -/
def vTo (c : Collab) (rsvd : RSVD) (dst : Mat) : Mat × Except Err Unit :=
  match rsvd.svd with
  | none => (dst, .error .nilPointer)
  | some st => svdVToM c st dst

/-- The identity matrix, used by the trivial collaborator instance. -/
def idMat (n : Nat) : Mat :=
  ⟨n, n, flatOf n n (fun i j => if i = j then 1 else 0)⟩

/-- A trivial executable collaborator instance satisfying the boundary
contracts: identity orthogonal factor, always-succeeding SVD with zero
singular values, zero draws. -/
def trivCollab : Collab where
  qrQFull Z := idMat Z.rows
  svdOk _ := true
  svdVals Y := List.replicate Y.rows 0
  svdU Y := idMat Y.rows
  svdV Y := ⟨Y.cols, Y.rows, List.replicate (Y.cols * Y.rows) 0⟩
  rand _ := 0

/-- A concrete 2×2 input matrix (the identity). -/
def matA : Mat := ⟨2, 2, [1, 0, 0, 1]⟩

/-- A zero-valued RSVD whose inner SVD pointer has been populated with a
fresh (zero-valued) SVD, so that the delegation at the end of `Factorize`
does not dereference nil. -/
def rsvdPop : RSVD := ⟨some ⟨false, emptyMat⟩, 0, none, 0⟩

/-- A concrete non-empty 2×1 destination matrix. -/
def matB : Mat := ⟨2, 1, [0, 0]⟩

/-- The random projector `P` drawn by `Factorize`: an `n × rank` matrix of
consecutive draws of the random source. -/
def randomP (c : Collab) (n r : Nat) : Mat :=
  ⟨n, r, (List.range (n * r)).map c.rand⟩

/-- The sketch `Z = A · P` computed by `Factorize`. -/
def sketchZ (c : Collab) (A : Mat) (r : Nat) : Mat :=
  matMul A (randomP c A.cols r)

/-- The orthonormal basis `Q` computed by `Factorize`: the full orthogonal
factor of the QR factorization of `Z`, truncated to its first `rank`
columns. -/
def basisQ (c : Collab) (A : Mat) (r : Nat) : Mat :=
  sliceTo (c.qrQFull (sketchZ c A r)) A.rows r

/-- The reduced matrix `Y = Qᵀ · A` computed by `Factorize`. -/
def reducedY (c : Collab) (A : Mat) (r : Nat) : Mat :=
  matMul (basisQ c A r).transpose A

/-- The intermediate-value chain of `Factorize` (claim C5): the projector,
sketch, truncated basis and reduced matrix have the stated definitions and
dimensions, and the reduced matrix is what is handed to the SVD
collaborator. -/
def C5Prop (c : Collab) (rsvd : RSVD) (A : Mat) (rank : Int) : Prop :=
  (randomP c A.cols rank.toNat).rows = A.cols ∧
  (randomP c A.cols rank.toNat).cols = rank.toNat ∧
  makeRandomMatrix c A.cols rank.toNat = .ok (randomP c A.cols rank.toNat) ∧
  sketchZ c A rank.toNat = matMul A (randomP c A.cols rank.toNat) ∧
  (sketchZ c A rank.toNat).rows = A.rows ∧
  (sketchZ c A rank.toNat).cols = rank.toNat ∧
  (c.qrQFull (sketchZ c A rank.toNat)).rows = A.rows ∧
  (c.qrQFull (sketchZ c A rank.toNat)).cols = A.rows ∧
  basisQ c A rank.toNat
    = sliceTo (c.qrQFull (sketchZ c A rank.toNat)) A.rows rank.toNat ∧
  (basisQ c A rank.toNat).rows = A.rows ∧
  (basisQ c A rank.toNat).cols = rank.toNat ∧
  reducedY c A rank.toNat = matMul (basisQ c A rank.toNat).transpose A ∧
  (reducedY c A rank.toNat).rows = rank.toNat ∧
  (reducedY c A rank.toNat).cols = A.cols ∧
  (∀ st, rsvd.svd = some st →
    factorize c rsvd A rank =
      ({ rsvd with
          m := A.rows
          q := some (basisQ c A rank.toNat)
          svd := some ⟨c.svdOk (reducedY c A rank.toNat), reducedY c A rank.toNat⟩ },
       .ok (c.svdOk (reducedY c A rank.toNat))))

/-- The `Values` contract after a successful factorization (claim C9): a
sequence of exactly `rank` values, non-increasing and non-negative, and a
fatal length check on a supplied slice. -/
def C9Prop (c : Collab) (st1 : RSVD) (rank : Int) : Prop :=
  ∃ vs : List ℚ, values c st1 none = .ok vs ∧ (vs.length : Int) = rank ∧
    List.Chain' (fun a b => b ≤ a) vs ∧ (∀ x ∈ vs, 0 ≤ x) ∧
    (∀ l : List ℚ, l.length ≠ rank.toNat →
      values c st1 (some l) = .error .sliceLength)

/-- The `VTo` contract after a successful factorization (claim C10): direct
delegation to the collaborator's right vectors (no back-projection), an
empty destination is resized to `n × rank` and filled with those vectors,
and a wrong-shaped non-empty destination is a fatal error. -/
def C10Prop (c : Collab) (st1 : RSVD) (n r : Nat) : Prop :=
  ∃ st : SVDState, st1.svd = some st ∧ st.ok = true ∧
    (c.svdV st.y).rows = n ∧ (c.svdV st.y).cols = r ∧
    (∀ dst : Mat, dst.isEmpty = true →
      (vTo c st1 dst).snd = .ok () ∧
      (vTo c st1 dst).fst.rows = n ∧ (vTo c st1 dst).fst.cols = r ∧
      (∀ i j, i < n → j < r →
        (vTo c st1 dst).fst.entry i j = (c.svdV st.y).entry i j)) ∧
    (∀ dst : Mat, dst.isEmpty = false → ¬(dst.rows = n ∧ dst.cols = r) →
      vTo c st1 dst = (dst, .error .shape))

theorem rowOf_length (c : Nat) (g : Nat → ℚ) : (rowOf c g).length = c := by
  simp [rowOf]

theorem flatOf_length (r c : Nat) (f : Nat → Nat → ℚ) :
    (flatOf r c f).length = r * c := by
  induction r generalizing f with
  | zero => simp [flatOf]
  | succ r ih =>
    simp only [flatOf, List.length_append, rowOf_length, ih]
    ring

theorem rowOf_getD (c : Nat) (g : Nat → ℚ) (j : Nat) (hj : j < c) :
    (rowOf c g).getD j 0 = g j := by
  rw [List.getD_eq_getElem _ _ (by simpa [rowOf_length] using hj)]
  simp [rowOf]

theorem flatOf_getD (r c : Nat) (f : Nat → Nat → ℚ) (i j : Nat)
    (hi : i < r) (hj : j < c) :
    (flatOf r c f).getD (i * c + j) 0 = f i j := by
  induction r generalizing f i with
  | zero => omega
  | succ r ih =>
    cases i with
    | zero =>
      simp only [flatOf, Nat.zero_mul, Nat.zero_add]
      rw [List.getD_append _ _ _ _ (by simpa [rowOf_length] using hj)]
      exact rowOf_getD c (f 0) j hj
    | succ i =>
      simp only [flatOf]
      rw [List.getD_append_right _ _ _ _
        (by simp only [rowOf_length, Nat.succ_mul]; omega)]
      have hidx : (i + 1) * c + j - (rowOf c (f 0)).length = i * c + j := by
        simp only [rowOf_length, Nat.succ_mul]; omega
      rw [hidx]
      exact ih (fun a b => f (a + 1) b) i (by omega)

theorem copyInto_rows (dst src : Mat) : (copyInto dst src).rows = dst.rows := rfl

theorem copyInto_cols (dst src : Mat) : (copyInto dst src).cols = dst.cols := rfl

theorem copyInto_entry (dst src : Mat) (i j : Nat)
    (hi : i < dst.rows) (hj : j < dst.cols) :
    (copyInto dst src).entry i j =
      if i < src.rows ∧ j < src.cols then src.entry i j else dst.entry i j := by
  show (flatOf dst.rows dst.cols _).getD (i * dst.cols + j) 0 = _
  exact flatOf_getD dst.rows dst.cols _ i j hi hj

theorem newDense_none_pos (r c : Nat) (hr : r ≠ 0) (hc : c ≠ 0) :
    newDense r c none = .ok ⟨r, c, List.replicate (r * c) 0⟩ := by
  unfold newDense
  rw [if_neg (by omega)]

theorem mulInto_ok (dst a b : Mat) (h1 : a.cols = b.rows)
    (h2 : dst.rows = a.rows) (h3 : dst.cols = b.cols) :
    mulInto dst a b = .ok (matMul a b) := by
  unfold mulInto
  rw [if_neg (by simp [h1])]
  by_cases h : dst.isEmpty
  · rw [if_pos h]
  · rw [if_neg h, if_pos ⟨h2, h3⟩]

theorem makeRandomMatrix_pos (c : Collab) (n r : Nat) (hn : n ≠ 0) (hr : r ≠ 0) :
    makeRandomMatrix c n r = .ok (randomP c n r) := by
  unfold makeRandomMatrix newDense randomP
  rw [if_neg (by omega)]
  simp

theorem trivCollabSpec : CollabSpec trivCollab := by
  refine ⟨fun Z => rfl, fun Z => rfl, fun Y => by simp [trivCollab],
    fun Y => ?_, fun Y x hx => ?_, fun Y => rfl, fun Y => rfl,
    fun Y => rfl, fun Y => rfl, fun i => by norm_num [trivCollab]⟩
  · exact List.chain'_replicate_of_rel _ le_rfl
  · simp only [trivCollab] at hx
    rw [List.eq_of_mem_replicate hx]

/-- The full reduction of `Factorize` on positive dimensions and rank: the
rank guard passes, the projector, sketch, basis and reduced matrix are built
as in `randomP`, `sketchZ`, `basisQ`, `reducedY`, the receiver's `m` and `q`
fields are stored, and the call then delegates to the inner SVD pointer. -/
theorem factorize_go (c : Collab) (rsvd : RSVD) (A : Mat) (rank : Int)
    (hm : 1 ≤ A.rows) (hn : 1 ≤ A.cols) (hr : 1 ≤ rank) :
    factorize c rsvd A rank =
      (match rsvd.svd with
       | none =>
         ({ rsvd with m := A.rows, q := some (basisQ c A rank.toNat) },
          .error .nilPointer)
       | some _ =>
         ({ rsvd with
             m := A.rows
             q := some (basisQ c A rank.toNat)
             svd := some ⟨c.svdOk (reducedY c A rank.toNat), reducedY c A rank.toNat⟩ },
          .ok (c.svdOk (reducedY c A rank.toNat)))) := by
  have hm0 : A.rows ≠ 0 := by omega
  have hn0 : A.cols ≠ 0 := by omega
  have hr0 : rank.toNat ≠ 0 := by omega
  simp only [factorize, if_neg (show ¬rank < 1 by omega),
    makeRandomMatrix_pos c A.cols rank.toNat hn0 hr0,
    newDense_none_pos A.rows rank.toNat hm0 hr0,
    newDense_none_pos rank.toNat A.cols hr0 hn0]
  rw [mulInto_ok ⟨A.rows, rank.toNat, List.replicate (A.rows * rank.toNat) 0⟩
    A (randomP c A.cols rank.toNat) rfl rfl rfl]
  simp only []
  rw [mulInto_ok ⟨rank.toNat, A.cols, List.replicate (rank.toNat * A.cols) 0⟩
    (sliceTo (c.qrQFull (matMul A (randomP c A.cols rank.toNat)))
      A.rows rank.toNat).transpose A rfl rfl rfl]
  rfl

/-- Reduction of `Factorize` on a receiver whose inner SVD pointer is
populated: the call completes, stores `m` and `Q`, replaces the inner state
with the collaborator's factorization of the reduced matrix, and returns the
collaborator's flag. -/
theorem factorize_some (c : Collab) (rsvd : RSVD) (A : Mat) (rank : Int)
    (st0 : SVDState) (hm : 1 ≤ A.rows) (hn : 1 ≤ A.cols) (hr : 1 ≤ rank)
    (hsvd : rsvd.svd = some st0) :
    factorize c rsvd A rank =
      ({ rsvd with
          m := A.rows
          q := some (basisQ c A rank.toNat)
          svd := some ⟨c.svdOk (reducedY c A rank.toNat), reducedY c A rank.toNat⟩ },
       .ok (c.svdOk (reducedY c A rank.toNat))) := by
  rw [factorize_go c rsvd A rank hm hn hr, hsvd]

theorem values_some (c : Collab) (rsvd : RSVD) (s : Option (List ℚ))
    (st : SVDState) (h : rsvd.svd = some st) :
    values c rsvd s = svdValuesM c st s := by
  unfold values
  rw [h]

theorem vTo_some (c : Collab) (rsvd : RSVD) (dst : Mat)
    (st : SVDState) (h : rsvd.svd = some st) :
    vTo c rsvd dst = svdVToM c st dst := by
  unfold vTo
  rw [h]

theorem svdValuesM_none_ok (c : Collab) (st : SVDState) (hok : st.ok = true) :
    svdValuesM c st none = .ok (c.svdVals st.y) := by
  unfold svdValuesM
  rw [if_neg (by simp [hok])]

theorem svdValuesM_some_bad (c : Collab) (st : SVDState) (l : List ℚ)
    (hok : st.ok = true) (hl : l.length ≠ (c.svdVals st.y).length) :
    svdValuesM c st (some l) = .error .sliceLength := by
  unfold svdValuesM
  rw [if_neg (by simp [hok])]
  show (if l.length = (c.svdVals st.y).length then Except.ok (c.svdVals st.y)
    else Except.error Err.sliceLength) = Except.error Err.sliceLength
  rw [if_neg hl]

theorem svdVToM_empty (c : Collab) (st : SVDState) (dst : Mat)
    (hok : st.ok = true) (hde : dst.isEmpty = true)
    (h0 : (c.svdV st.y).rows ≠ 0) (h1 : (c.svdV st.y).cols ≠ 0) :
    svdVToM c st dst =
      (copyInto ⟨(c.svdV st.y).rows, (c.svdV st.y).cols,
        List.replicate ((c.svdV st.y).rows * (c.svdV st.y).cols) 0⟩
        (c.svdV st.y), .ok ()) := by
  unfold svdVToM reuseAs
  rw [if_neg (by simp [hok]), if_pos hde, if_neg (by omega)]

theorem svdVToM_mismatch (c : Collab) (st : SVDState) (dst : Mat)
    (hok : st.ok = true) (hde : dst.isEmpty = false)
    (hdim : ¬(dst.rows = (c.svdV st.y).rows ∧ dst.cols = (c.svdV st.y).cols)) :
    svdVToM c st dst = (dst, .error .shape) := by
  unfold svdVToM
  rw [if_neg (by simp [hok]), if_neg (by simp [hde]), if_neg hdim]

/-- Claim C1, code bug: the result guarantee fails on the code. On a
zero-valued receiver `Factorize` panics dereferencing the nil inner-SVD
pointer instead of returning a success flag; with the inner SVD populated it
does return the collaborator's flag, but a `true` return does not make every
accessor valid — `UTo` aborts because the rank field was never stored.
Evaluated at the 2×2 identity with rank 1. -/
theorem C1_result_guarantee_fails :
    (factorize trivCollab RSVD.zero matA 1).snd = .error .nilPointer ∧
    (factorize trivCollab rsvdPop matA 1).snd = .ok true ∧
    (uTo trivCollab (factorize trivCollab rsvdPop matA 1).fst emptyMat).snd
      = .error .badDim := by
  decide

/-- Claim C2, confirmed: the zero-valued receiver's `svd` field is nil, no
operation assigns it (a nil field stays nil through `Factorize`), and on the
zero-valued receiver `Factorize` with positive rank as well as `Values`,
`UTo` and `VTo` all dereference the nil pointer and panic rather than
returning a flag or a result. -/
theorem C2_nil_svd_panics (c : Collab) (A : Mat) (rank : Int)
    (hm : 1 ≤ A.rows) (hn : 1 ≤ A.cols) (hr : 1 ≤ rank) :
    RSVD.zero.svd = none ∧
    (∀ rsvd : RSVD, rsvd.svd = none →
      ((factorize c rsvd A rank).fst).svd = none) ∧
    (factorize c RSVD.zero A rank).snd = .error .nilPointer ∧
    values c RSVD.zero none = .error .nilPointer ∧
    (uTo c RSVD.zero emptyMat).snd = .error .nilPointer ∧
    (vTo c RSVD.zero emptyMat).snd = .error .nilPointer := by
  refine ⟨rfl, ?_, ?_, rfl, rfl, rfl⟩
  · intro rsvd h
    rw [factorize_go c rsvd A rank hm hn hr, h]
  · rw [factorize_go c RSVD.zero A rank hm hn hr]
    rfl

/-- Witness for claim C2 at the 2×2 identity with rank 1. -/
theorem C2_nil_svd_panics_witness :
    (1 ≤ matA.rows ∧ 1 ≤ matA.cols ∧ (1 : Int) ≤ 1) ∧
    (RSVD.zero.svd = none ∧
     (∀ rsvd : RSVD, rsvd.svd = none →
       ((factorize trivCollab rsvd matA 1).fst).svd = none) ∧
     (factorize trivCollab RSVD.zero matA 1).snd = .error .nilPointer ∧
     values trivCollab RSVD.zero none = .error .nilPointer ∧
     (uTo trivCollab RSVD.zero emptyMat).snd = .error .nilPointer ∧
     (vTo trivCollab RSVD.zero emptyMat).snd = .error .nilPointer) :=
  ⟨⟨by decide, by decide, by decide⟩,
   C2_nil_svd_panics trivCollab matA 1 (by decide) (by decide) (by decide)⟩

/-- Claim C3, code bug: `Factorize` stores `m`, `Q` and the reduced-SVD
state but never writes the rank field. After a completed `Factorize(A, 1)`
(inner SVD populated so the call completes successfully) the stored rank is
still 0, not the rank argument 1. -/
theorem C3_rank_not_stored :
    (factorize trivCollab rsvdPop matA 1).snd = .ok true ∧
    ((factorize trivCollab rsvdPop matA 1).fst).m = 2 ∧
    ((factorize trivCollab rsvdPop matA 1).fst).q ≠ none ∧
    ((factorize trivCollab rsvdPop matA 1).fst).svd ≠ none ∧
    ((factorize trivCollab rsvdPop matA 1).fst).rank = 0 ∧
    ((factorize trivCollab rsvdPop matA 1).fst).rank ≠ 1 := by
  decide

/-- Claim C4, code bug: after a successful rank-1 factorization of the 2×2
identity, `UTo` does not write the `m × rank` matrix `Q·Uy`: it aborts while
building its `m × rank` buffer from the receiver's rank field, which is
still 0 — both on an empty destination and on a correctly shaped 2×1 one,
leaving the destination untouched. -/
theorem C4_uTo_never_writes :
    (factorize trivCollab rsvdPop matA 1).snd = .ok true ∧
    uTo trivCollab (factorize trivCollab rsvdPop matA 1).fst emptyMat
      = (emptyMat, .error .badDim) ∧
    uTo trivCollab (factorize trivCollab rsvdPop matA 1).fst matB
      = (matB, .error .badDim) := by
  decide

/-- Claim C5, confirmed: for every valid input (positive dimensions, rank at
least 1) and any collaborators satisfying the spec's boundary contracts,
`Factorize` computes `Z = A·P` of size m×rank from the n×rank random
projector, truncates the full m×m orthogonal factor of `Z`'s QR
factorization to its first rank columns to obtain `Q`, and hands
`Y = Qᵀ·A` of size rank×n to the exact SVD collaborator. -/
theorem C5_intermediate_chain (c : Collab) (hc : CollabSpec c) (rsvd : RSVD)
    (A : Mat) (rank : Int)
    (hm : 1 ≤ A.rows) (hn : 1 ≤ A.cols) (hr : 1 ≤ rank) :
    C5Prop c rsvd A rank := by
  have hn0 : A.cols ≠ 0 := by omega
  have hr0 : rank.toNat ≠ 0 := by omega
  refine ⟨rfl, rfl, makeRandomMatrix_pos c A.cols rank.toNat hn0 hr0,
    rfl, rfl, rfl, hc.qr_rows _, hc.qr_cols _, rfl, rfl, rfl, rfl, rfl, rfl,
    ?_⟩
  intro st h
  rw [factorize_go c rsvd A rank hm hn hr, h]

/-- Witness for claim C5 at the 2×2 identity with rank 1 and the trivial
collaborators. -/
theorem C5_intermediate_chain_witness :
    (1 ≤ matA.rows ∧ 1 ≤ matA.cols ∧ (1 : Int) ≤ 1) ∧
    C5Prop trivCollab rsvdPop matA 1 :=
  ⟨⟨by decide, by decide, by decide⟩,
   C5_intermediate_chain trivCollab trivCollabSpec rsvdPop matA 1
     (by decide) (by decide) (by decide)⟩

/-- Claim C6, confirmed: for every receiver, matrix and rank at most 0,
`Factorize` aborts fatally at the rank guard — before any computation, with
the receiver unchanged — and never returns a boolean. -/
theorem C6_low_rank_fatal (c : Collab) (rsvd : RSVD) (A : Mat) (rank : Int)
    (h : rank ≤ 0) :
    factorize c rsvd A rank = (rsvd, .error .rankTooSmall) := by
  unfold factorize
  rw [if_pos (by omega)]

/-- Witness for claim C6 at rank 0. -/
theorem C6_low_rank_fatal_witness :
    (0 : Int) ≤ 0 ∧
    factorize trivCollab RSVD.zero matA 0 = (RSVD.zero, .error .rankTooSmall) :=
  ⟨le_refl 0, C6_low_rank_fatal trivCollab RSVD.zero matA 0 (le_refl 0)⟩

/-- Claim C7, confirmed: a `Factorize` call aborting on the rank guard
mutates no field of the receiver, so any previously stored factorization
state remains exactly as it was and every accessor behaves on it as
before. -/
theorem C7_abort_preserves_state (c : Collab) (rsvd : RSVD) (A : Mat)
    (rank : Int) (h : rank ≤ 0) :
    (factorize c rsvd A rank).fst = rsvd ∧
    (∀ s, values c (factorize c rsvd A rank).fst s = values c rsvd s) ∧
    (∀ dst, uTo c (factorize c rsvd A rank).fst dst = uTo c rsvd dst) ∧
    (∀ dst, vTo c (factorize c rsvd A rank).fst dst = vTo c rsvd dst) := by
  have hf : (factorize c rsvd A rank).fst = rsvd := by
    unfold factorize
    rw [if_pos (by omega)]
  exact ⟨hf, fun s => by rw [hf], fun dst => by rw [hf], fun dst => by rw [hf]⟩

/-- Witness for claim C7 at rank 0 on a receiver holding prior state. -/
theorem C7_abort_preserves_state_witness :
    (0 : Int) ≤ 0 ∧
    ((factorize trivCollab rsvdPop matA 0).fst = rsvdPop ∧
     (∀ s, values trivCollab (factorize trivCollab rsvdPop matA 0).fst s
       = values trivCollab rsvdPop s) ∧
     (∀ dst, uTo trivCollab (factorize trivCollab rsvdPop matA 0).fst dst
       = uTo trivCollab rsvdPop dst) ∧
     (∀ dst, vTo trivCollab (factorize trivCollab rsvdPop matA 0).fst dst
       = vTo trivCollab rsvdPop dst)) :=
  ⟨le_refl 0, C7_abort_preserves_state trivCollab rsvdPop matA 0 (le_refl 0)⟩

/-- Claim C8, confirmed: `UTo` on a non-empty destination whose dimensions
differ from the receiver's stored m×rank aborts fatally and performs no
write to the destination — the destination after the call is exactly the
destination before it. -/
theorem C8_uTo_mismatch_no_write (c : Collab) (rsvd : RSVD) (dst : Mat)
    (hne : dst.isEmpty = false)
    (hdim : ¬(dst.rows = rsvd.m ∧ dst.cols = rsvd.rank)) :
    ∃ e, uTo c rsvd dst = (dst, .error e) := by
  unfold uTo
  split
  · exact ⟨_, rfl⟩
  · split
    · exact ⟨_, rfl⟩
    · split
      · exact ⟨_, rfl⟩
      · split
        · exact ⟨_, rfl⟩
        · split
          · exact ⟨_, rfl⟩
          · rw [if_neg (by simp [hne]), if_neg hdim]
            exact ⟨_, rfl⟩

/-- Witness for claim C8 on a 2×1 destination against the zero receiver. -/
theorem C8_uTo_mismatch_no_write_witness :
    (matB.isEmpty = false ∧
     ¬(matB.rows = RSVD.zero.m ∧ matB.cols = RSVD.zero.rank)) ∧
    ∃ e, uTo trivCollab RSVD.zero matB = (matB, .error e) :=
  ⟨⟨by decide, by decide⟩,
   C8_uTo_mismatch_no_write trivCollab RSVD.zero matB (by decide) (by decide)⟩

/-- Claim C9, confirmed against the spec-modelled SVD collaborator: after a
successful `Factorize` with rank at least 1, `Values` returns exactly `rank`
singular values, non-increasing and all non-negative, and a supplied slice
whose length is not `rank` is a fatal precondition violation. -/
theorem C9_values_contract (c : Collab) (hc : CollabSpec c) (rsvd : RSVD)
    (A : Mat) (rank : Int) (st0 : SVDState) (hsvd : rsvd.svd = some st0)
    (hm : 1 ≤ A.rows) (hn : 1 ≤ A.cols) (hr : 1 ≤ rank)
    (hok : (factorize c rsvd A rank).snd = .ok true) :
    C9Prop c (factorize c rsvd A rank).fst rank := by
  have hchar := factorize_some c rsvd A rank st0 hm hn hr hsvd
  rw [hchar] at hok ⊢
  have hokY : c.svdOk (reducedY c A rank.toNat) = true := by
    simpa using hok
  have hst : (⟨c.svdOk (reducedY c A rank.toNat),
      reducedY c A rank.toNat⟩ : SVDState).ok = true := hokY
  refine ⟨c.svdVals (reducedY c A rank.toNat), ?_, ?_,
    hc.vals_desc _, hc.vals_nonneg _, ?_⟩
  · rw [values_some c _ none ⟨c.svdOk (reducedY c A rank.toNat),
      reducedY c A rank.toNat⟩ rfl]
    exact svdValuesM_none_ok c _ hst
  · rw [hc.vals_len]
    show (((reducedY c A rank.toNat).rows : Nat) : Int) = rank
    have hrw : (reducedY c A rank.toNat).rows = rank.toNat := rfl
    rw [hrw]
    omega
  · intro l hl
    rw [values_some c _ (some l) ⟨c.svdOk (reducedY c A rank.toNat),
      reducedY c A rank.toNat⟩ rfl]
    refine svdValuesM_some_bad c _ l hst ?_
    rw [hc.vals_len]
    exact hl

/-- Witness for claim C9 at the 2×2 identity with rank 1 and the trivial
collaborators. -/
theorem C9_values_contract_witness :
    (factorize trivCollab rsvdPop matA 1).snd = .ok true ∧
    C9Prop trivCollab (factorize trivCollab rsvdPop matA 1).fst 1 :=
  ⟨by decide,
   C9_values_contract trivCollab trivCollabSpec rsvdPop matA 1
     ⟨false, emptyMat⟩ rfl (by decide) (by decide) (by decide) (by decide)⟩

/-- Claim C10, confirmed against the spec-modelled SVD collaborator: after a
successful `Factorize`, `VTo` delegates directly to the collaborator's
right-singular-vector extraction over `Y` — the written entries are the
collaborator's, with no back-projection — resizing an empty destination to
n×rank and failing fatally, without writing, on a non-empty destination of
any other shape. -/
theorem C10_vTo_contract (c : Collab) (hc : CollabSpec c) (rsvd : RSVD)
    (A : Mat) (rank : Int) (st0 : SVDState) (hsvd : rsvd.svd = some st0)
    (hm : 1 ≤ A.rows) (hn : 1 ≤ A.cols) (hr : 1 ≤ rank)
    (hok : (factorize c rsvd A rank).snd = .ok true) :
    C10Prop c (factorize c rsvd A rank).fst A.cols rank.toNat := by
  have hchar := factorize_some c rsvd A rank st0 hm hn hr hsvd
  rw [hchar] at hok ⊢
  have hokY : c.svdOk (reducedY c A rank.toNat) = true := by
    simpa using hok
  have hst : (⟨c.svdOk (reducedY c A rank.toNat),
      reducedY c A rank.toNat⟩ : SVDState).ok = true := hokY
  have hvr : (c.svdV (reducedY c A rank.toNat)).rows = A.cols :=
    hc.v_rows _
  have hvc : (c.svdV (reducedY c A rank.toNat)).cols = rank.toNat :=
    hc.v_cols _
  refine ⟨⟨c.svdOk (reducedY c A rank.toNat), reducedY c A rank.toNat⟩,
    rfl, hokY, hvr, hvc, ?_, ?_⟩
  · intro dst hde
    rw [vTo_some c _ dst ⟨c.svdOk (reducedY c A rank.toNat),
      reducedY c A rank.toNat⟩ rfl]
    rw [svdVToM_empty c _ dst hst hde (by rw [hvr]; omega) (by rw [hvc]; omega)]
    refine ⟨rfl, hvr, hvc, ?_⟩
    intro i j hi hj
    rw [copyInto_entry _ _ i j (by simpa [hvr] using hi)
      (by simpa [hvc] using hj)]
    rw [if_pos ⟨by rw [hvr]; exact hi, by rw [hvc]; exact hj⟩]
  · intro dst hde hdim
    rw [vTo_some c _ dst ⟨c.svdOk (reducedY c A rank.toNat),
      reducedY c A rank.toNat⟩ rfl]
    exact svdVToM_mismatch c _ dst hst hde (by rw [hvr, hvc]; exact hdim)

/-- Witness for claim C10 at the 2×2 identity with rank 1 and the trivial
collaborators. -/
theorem C10_vTo_contract_witness :
    (factorize trivCollab rsvdPop matA 1).snd = .ok true ∧
    C10Prop trivCollab (factorize trivCollab rsvdPop matA 1).fst 2 1 :=
  ⟨by decide,
   C10_vTo_contract trivCollab trivCollabSpec rsvdPop matA 1
     ⟨false, emptyMat⟩ rfl (by decide) (by decide) (by decide) (by decide)⟩

end RSVDModel
